import Mathlib

/-!
Verification development for the Brief AI browser extension.

The JavaScript sources are shallowly embedded: JS strings become Lean
`String` (or `List Char` where index arithmetic matters), JS objects become
structures, fallible code returns `Except`, host-provided browser and
backend APIs become explicit environment records, and stateful components
become step functions on explicit state types.  Each definition mirrors one
function of the repository; the file ends with the theorems.
-/

set_option maxRecDepth 2000

namespace BriefAI

/-- JS truthiness-based defaulting for strings: `x || d` where `x` is a
string-or-absent value (absent, `null`, `undefined` and the empty string are
falsy). -/
def jsOrStr (x : Option String) (d : String) : String :=
  match x with
  | none => d
  | some s => if s = "" then d else s

/-- JS `String.prototype.toLowerCase` as applied to BCP-47 language codes
(ASCII case mapping). -/
def jsToLowerCase (s : String) : String := ⟨s.data.map Char.toLower⟩

/-- JS `String.prototype.includes`: substring containment. -/
def jsIncludes (s sub : String) : Bool :=
  decide (sub.toList <:+: s.toList)

/-! ## Content script: platform detection and dispatch (src/content.js) -/

namespace Content

/-- Embeds `LiveTranslatorController.detectPlatform` (src/content.js:20-28):
an if/else chain over `window.location.hostname`. -/
def detectPlatform (hostname : String) : String :=
  if jsIncludes hostname "youtube.com" then "youtube"
  else if jsIncludes hostname "netflix.com" then "netflix"
  else if jsIncludes hostname "twitch.tv" then "twitch"
  else if jsIncludes hostname "primevideo.com" then "primevideo"
  else if jsIncludes hostname "disneyplus.com" then "disneyplus"
  else "generic"

/-- The four caption-detection routines that `startCaptionDetection` can
start. -/
inductive Routine where
  | youtube
  | netflix
  | twitch
  | generic
deriving DecidableEq, Repr

/-- Embeds `LiveTranslatorController.startCaptionDetection`
(src/content.js:101-115): a switch on `this.platform` whose `default`
branch starts the generic HTML5 detection. -/
def startCaptionDetection (platform : String) : Routine :=
  if platform = "youtube" then .youtube
  else if platform = "netflix" then .netflix
  else if platform = "twitch" then .twitch
  else .generic

end Content

/-! ## AI router: mode storage (src/services/ai-router.js:17-32) -/

namespace Router

/-- The `chrome.storage.local` slice the router touches: the `aiMode` key. -/
structure Storage where
  aiMode : Option String
deriving DecidableEq, Repr

/-- Embeds `AIRouter.initialize` (src/services/ai-router.js:17-20): loads
`aiMode` from storage, defaulting to `'local'` via `result.aiMode || 'local'`. -/
def initializeMode (st : Storage) : String :=
  jsOrStr st.aiMode "local"

/-- Embeds `AIRouter.setMode` (src/services/ai-router.js:23-27): sets the
in-memory mode and persists it under the `aiMode` key.  Returns the new
in-memory `preferredMode` together with the updated storage. -/
def setMode (st : Storage) (mode : String) : String × Storage :=
  (mode, { st with aiMode := some mode })

/-- The status object built by `AIService.checkAvailability`
(src/services/ai-services.js:1029-1079); its four keys. -/
structure Avail where
  summarizer : String
  translator : String
  languageDetector : String
  promptAPI : String
deriving DecidableEq, Repr

/-- JS property lookup on the availability status object: only the four keys
set by `checkAvailability` are present, every other property access yields
`undefined` (here `none`). -/
def Avail.lookup (a : Avail) (key : String) : Option String :=
  if key = "summarizer" then some a.summarizer
  else if key = "translator" then some a.translator
  else if key = "languageDetector" then some a.languageDetector
  else if key = "promptAPI" then some a.promptAPI
  else none

/-- Embeds `AIRouter.isLocalAvailable` (src/services/ai-router.js:88-109).
Note that for `'prompt'`/`'chat'` the source reads `availability.languageModel`,
a key `checkAvailability` never sets (it sets `promptAPI`), so that lookup is
`undefined` and the comparison with `'available'` is always false. -/
def isLocalAvailable (av : Avail) (action : String) : Bool :=
  if action = "summarize" then av.lookup "summarizer" = some "available"
  else if action = "translate" then av.lookup "translator" = some "available"
  else if action = "detect" then av.lookup "languageDetector" = some "available"
  else if action = "prompt" ∨ action = "chat" then
    av.lookup "languageModel" = some "available"
  else false

/-- The two providers the router can route to. -/
inductive Provider where
  | cloud
  | local
deriving DecidableEq, Repr

/-- Environment of the router: the stored mode, the host-controlled
predicates it consults (`cloudAI.hasCloudAccess`, `navigator.onLine`, local
availability) and the provider operations it delegates to.  Provider calls
are host-controlled black boxes returning either a result (opaque here) or a
thrown error message. -/
structure Env where
  storedAiMode : Option String
  hasCloudAccess : Bool
  onLine : Bool
  avail : Avail
  cloudSummarizeF : String → Except String String
  localSummarizeF : String → Except String String
  cloudTranslateF : String → String → String → Except String String
  localTranslateF : String → String → String → Except String String
  cloudChatF : String → Except String String
  localPromptF : String → Except String String

/-- Embeds `AIRouter.selectProvider` (src/services/ai-router.js:35-85).  It
first runs `initialize()` (re-reading `aiMode` from storage) and then walks
the preference chain; in `'auto'` mode with no provider usable it throws. -/
def selectProvider (env : Env) (action : String) (text : String) :
    Except String Provider :=
  let mode := jsOrStr env.storedAiMode "local"
  if mode = "cloud" then
    if env.hasCloudAccess then .ok .cloud else .ok .local
  else if mode = "local" then .ok .local
  else if mode = "auto" then
    let localAvailable := isLocalAvailable env.avail action
    let textLength := text.length
    if localAvailable = true ∧ textLength < 10000 then .ok .local
    else if env.hasCloudAccess = true ∧ env.onLine = true then .ok .cloud
    else if localAvailable then .ok .local
    else .error "No AI provider available. Please check your connection or enable Local AI."
  else .ok .local

/-- Embeds `AIRouter.fallback` (src/services/ai-router.js:232-272): one
attempt with the provider opposite to `failedProvider`, guarded by that
provider's availability check; no catch around the attempt, so its error
propagates.  Returns the outcome and the list of providers actually invoked. -/
def fallback (env : Env) (action : String) (text tgt src : String)
    (failedProvider : Provider) : Except String String × List Provider :=
  let alternateProvider := if failedProvider = .cloud then Provider.local else .cloud
  if alternateProvider = .cloud then
    if env.hasCloudAccess = false then
      (.error "Cloud AI not available and local AI failed", [])
    else if action = "summarize" then (env.cloudSummarizeF text, [.cloud])
    else if action = "translate" then (env.cloudTranslateF text tgt src, [.cloud])
    else if action = "chat" then (env.cloudChatF text, [.cloud])
    else (.error ("No fallback available for action: " ++ action), [])
  else
    if isLocalAvailable env.avail action = false then
      (.error "Local AI not available and cloud AI failed", [])
    else if action = "summarize" then (env.localSummarizeF text, [.local])
    else if action = "translate" then (env.localTranslateF text tgt src, [.local])
    else if action = "chat" then (env.localPromptF text, [.local])
    else (.error ("No fallback available for action: " ++ action), [])

/-- Embeds `AIRouter.summarize` (src/services/ai-router.js:112-128): select a
provider, try it, and on a thrown error run `fallback`.  The second component
records the providers invoked, in order. -/
def summarize (env : Env) (text : String) :
    Except String String × List Provider :=
  match selectProvider env "summarize" text with
  | .error e => (.error e, [])
  | .ok provider =>
    let attempt := if provider = .cloud then env.cloudSummarizeF text
                   else env.localSummarizeF text
    match attempt with
    | .ok r => (.ok r, [provider])
    | .error _ =>
      let fb := fallback env "summarize" text "" "" provider
      (fb.1, provider :: fb.2)

/-- Embeds `AIRouter.translate` (src/services/ai-router.js:131-146). -/
def translate (env : Env) (text targetLanguage sourceLanguage : String) :
    Except String String × List Provider :=
  match selectProvider env "translate" text with
  | .error e => (.error e, [])
  | .ok provider =>
    let attempt := if provider = .cloud then
                     env.cloudTranslateF text targetLanguage sourceLanguage
                   else env.localTranslateF text targetLanguage sourceLanguage
    match attempt with
    | .ok r => (.ok r, [provider])
    | .error _ =>
      let fb := fallback env "translate" text targetLanguage sourceLanguage provider
      (fb.1, provider :: fb.2)

/-- Embeds `AIRouter.chat` (src/services/ai-router.js:167-191).  The
conversation-history bookkeeping on the cloud path only happens after a
successful result and does not influence the outcome or the providers
invoked, so it is omitted from this embedding. -/
def chat (env : Env) (message : String) :
    Except String String × List Provider :=
  match selectProvider env "chat" message with
  | .error e => (.error e, [])
  | .ok provider =>
    let attempt := if provider = .cloud then env.cloudChatF message
                   else env.localPromptF message
    match attempt with
    | .ok r => (.ok r, [provider])
    | .error _ =>
      let fb := fallback env "chat" message "" "" provider
      (fb.1, provider :: fb.2)

end Router

/-! ## Cloud AI service (src/services/cloud-ai-service.js:7-160) -/

namespace Cloud

/-- An error rejected by a Firebase callable: a code and a message. -/
structure CloudErr where
  code : String
  message : String
deriving DecidableEq, Repr

/-- Response of the `translateText` callable as consumed by
`CloudAIService.translate`.  The translated text is a list of UTF-16 code
units, since `translateStream` does index arithmetic on it. -/
structure TranslateResp where
  translatedText : List Char
  sourceLanguage : String
  targetLanguage : String
  remaining : Nat
deriving DecidableEq, Repr

/-- Response of the `chatWithAI` callable as consumed by
`CloudAIService.chat`. -/
structure ChatResp where
  response : List Char
  remaining : Nat
deriving DecidableEq, Repr

/-- Environment of the cloud service: the authentication state and the two
backend callables it can invoke. -/
structure Env where
  authenticated : Bool
  translateBackendF : List Char → String → String → Except CloudErr TranslateResp
  chatBackendF : List Char → List (String × List Char) → Except CloudErr ChatResp

/-- Error remapping done by `CloudAIService.callFunction`
(src/services/cloud-ai-service.js:53-66). -/
def mapCloudError (e : CloudErr) : String :=
  if e.code = "unauthenticated" then "Authentication required. Please sign in."
  else if e.code = "resource-exhausted" then
    "Daily limit reached. Upgrade to Pro for unlimited requests."
  else if e.code = "permission-denied" then "Permission denied. Check your subscription."
  else "Cloud AI error: " ++ e.message

/-- Result shape of `CloudAIService.translate`
(src/services/cloud-ai-service.js:87-101). -/
structure TranslateResult where
  translatedText : List Char
  sourceLanguage : String
  targetLanguage : String
  provider : String
  remaining : Nat
deriving DecidableEq, Repr

/-- Result shape of `CloudAIService.chat`
(src/services/cloud-ai-service.js:104-115). -/
structure ChatResult where
  response : List Char
  provider : String
  remaining : Nat
deriving DecidableEq, Repr

/-- Embeds `CloudAIService.translate` (src/services/cloud-ai-service.js:87-101)
including the `callFunction` plumbing (lines 40-67): an authentication guard and
one invocation of the `translateText` callable.  The second component logs the
names of the backend functions invoked, in order. -/
def translate (env : Env) (text : List Char) (targetLanguage sourceLanguage : String) :
    Except String TranslateResult × List String :=
  if env.authenticated = false then
    (.error "Cloud AI requires authentication. Please sign in.", [])
  else
    match env.translateBackendF text targetLanguage sourceLanguage with
    | .error e => (.error (mapCloudError e), ["translateText"])
    | .ok r =>
      (.ok { translatedText := r.translatedText, sourceLanguage := r.sourceLanguage,
             targetLanguage := r.targetLanguage, provider := "cloud-ai",
             remaining := r.remaining }, ["translateText"])

/-- Embeds `CloudAIService.chat` (src/services/cloud-ai-service.js:104-115)
including the `callFunction` plumbing. -/
def chat (env : Env) (message : List Char) (context : List (String × List Char)) :
    Except String ChatResult × List String :=
  if env.authenticated = false then
    (.error "Cloud AI requires authentication. Please sign in.", [])
  else
    match env.chatBackendF message context with
    | .error e => (.error (mapCloudError e), ["chatWithAI"])
    | .ok r =>
      (.ok { response := r.response, provider := "cloud-ai", remaining := r.remaining },
       ["chatWithAI"])

/-- `Math.ceil(a / b)` on non-negative integers. -/
def ceilDiv (a b : Nat) : Nat := (a + b - 1) / b

/-- The chunk-simulation loop shared by `translateStream` and `chatStream`
(src/services/cloud-ai-service.js:133-137 and 152-156):
`for (let i = 0; i < text.length; i += chunkSize) onChunk(text.substring(0, i + chunkSize))`.
The `0 < chunkSize` guard only serves termination: in the source,
`chunkSize = Math.ceil(length / n)` is zero exactly when the text is empty,
in which case the loop body never runs anyway. -/
def chunkLoop (t : List Char) (chunkSize : Nat) (i : Nat) : List (List Char) :=
  if _h : 0 < chunkSize ∧ i < t.length then
    t.take (i + chunkSize) :: chunkLoop t chunkSize (i + chunkSize)
  else []
termination_by t.length - i
decreasing_by omega

/-- Embeds `CloudAIService.translateStream`
(src/services/cloud-ai-service.js:124-140): one non-streaming `translate`
call, then simulated chunks.  Third component: the successive arguments
passed to `onChunk`. -/
def translateStream (env : Env) (text : List Char) (targetLanguage sourceLanguage : String) :
    Except String TranslateResult × List String × List (List Char) :=
  match translate env text targetLanguage sourceLanguage with
  | (.error e, log) => (.error e, log, [])
  | (.ok result, log) =>
    let translatedText := result.translatedText
    let chunkSize := ceilDiv translatedText.length 10
    (.ok result, log, chunkLoop translatedText chunkSize 0)

/-- Embeds `CloudAIService.chatStream`
(src/services/cloud-ai-service.js:143-159). -/
def chatStream (env : Env) (message : List Char) (context : List (String × List Char)) :
    Except String ChatResult × List String × List (List Char) :=
  match chat env message context with
  | (.error e, log) => (.error e, log, [])
  | (.ok result, log) =>
    let response := result.response
    let chunkSize := ceilDiv response.length 15
    (.ok result, log, chunkLoop response chunkSize 0)

end Cloud

/-! ## Local AI service: the Translator wrappers
(src/services/ai-services.js and the copies in src/services/cloud-ai-service.js) -/

namespace LocalAI

/-- Result shape shared by the `translate` variants: the fields of the object
they return on success.  The nondeterministic `timestamp: Date.now()` field is
omitted. -/
structure TranslateResult where
  originalText : String
  translatedText : String
  sourceLanguage : String
  targetLanguage : String
  note : Option String
deriving DecidableEq, Repr

/-- Environment of the local translation wrappers: presence of the browser
APIs, user-activation state, and the behaviour of the host-provided detector
and translator objects. -/
structure Env where
  /-- Whether `'Translator' in self` holds. -/
  translatorInSelf : Bool
  /-- Whether `navigator.userActivation` is defined. -/
  userActivationDefined : Bool
  /-- `navigator.userActivation.isActive` (when defined). -/
  userActivationActive : Bool
  /-- `this.detectLanguage(text)` as a black box: a thrown message, or the
  `detectedLanguage` field of its result (possibly absent). -/
  detectF : String → Except String (Option String)
  /-- `Translator.availability({sourceLanguage, targetLanguage})`. -/
  translatorAvailabilityF : String → String → String
  /-- `translator.translate(text)` of the translator created for a pair. -/
  translatorTranslateF : String → String → String → String
  /-- `translator.translateStreaming(text)`: the raw stream fragments. -/
  translatorStreamF : String → String → String → List String
  /-- Whether `window.translation` is defined (older API used by the first
  copy in cloud-ai-service.js). -/
  windowTranslationDefined : Bool
  /-- `window.translation.canTranslate({sourceLanguage, targetLanguage})`. -/
  canTranslateF : String → String → String
  /-- `this.detectLanguage` of the first copy (window.translation based). -/
  oldDetectF : String → Except String (Option String)
  /-- Translation through the translator made by
  `window.translation.createTranslator`. -/
  oldCreateTranslateF : String → String → String → String

/-- The `hasActivation` computation repeated at each creation site:
`navigator.userActivation ? navigator.userActivation.isActive : true`. -/
def hasActivation (env : Env) : Bool :=
  if env.userActivationDefined then env.userActivationActive else true

/-- Source-language resolution shared by `AIService.translate` and
`AIService.translateStream` (src/services/ai-services.js:254-265 and
355-366): when `sourceLanguage` is absent, empty or `'auto'`, run
`detectLanguage` and fail if it yields no language. -/
def resolveSource (env : Env) (text : String) (sourceLanguage : Option String) :
    Except String String :=
  if sourceLanguage = none ∨ sourceLanguage = some "" ∨ sourceLanguage = some "auto" then
    match env.detectF text with
    | .error e => .error e
    | .ok d =>
      match d with
      | none => .error "Could not detect source language. Please specify it manually."
      | some s =>
        if s = "" then .error "Could not detect source language. Please specify it manually."
        else .ok s
  else .ok (sourceLanguage.getD "")

/-- Embeds `AIService.translate` of src/services/ai-services.js:241-343 for a
fresh service instance (`this.translator` is null, so the translator-creation
branch always runs).  All thrown errors are rewrapped by the surrounding
catch as `Translation failed: ...`.  The second component logs the Translator
API interactions, in order. -/
def translate (env : Env) (text targetLanguage : String) (sourceLanguage : Option String)
    (requireActivation : Bool) : Except String TranslateResult × List String :=
  if env.translatorInSelf = false then
    (.error "Translation failed: Translator API is not supported in this browser", [])
  else
    match resolveSource env text sourceLanguage with
    | .error e => (.error ("Translation failed: " ++ e), [])
    | .ok src0 =>
      let src := jsToLowerCase src0
      let tgt := jsToLowerCase targetLanguage
      if src = "" ∨ tgt = "" then
        (.error "Translation failed: Both source and target languages must be specified", [])
      else if src = tgt then
        (.ok { originalText := text, translatedText := text, sourceLanguage := src,
               targetLanguage := tgt, note := some "source-target-identical" }, [])
      else
        let canTranslate := env.translatorAvailabilityF src tgt
        if canTranslate = "unavailable" then
          (.error ("Translation failed: Translation from " ++ src ++ " to " ++ tgt
                   ++ " is not available"), ["Translator.availability"])
        else if requireActivation = true ∧ hasActivation env = false then
          (.error "Translation failed: User activation required to initialize Translator. Trigger from a click/tap/keypress.",
           ["Translator.availability"])
        else
          (.ok { originalText := text,
                 translatedText := env.translatorTranslateF src tgt text,
                 sourceLanguage := src, targetLanguage := tgt, note := none },
           ["Translator.availability", "Translator.create", "translator.translate"])

/-- Running accumulation done by the streaming loop: each raw fragment is
appended and the running concatenation is handed to `onChunk`. -/
def accumChunks (acc : String) : List String → List String
  | [] => []
  | c :: cs => (acc ++ c) :: accumChunks (acc ++ c) cs

/-- Embeds `AIService.translateStream` of src/services/ai-services.js:346-454
for a fresh instance.  Second component: the successive arguments passed to
`onChunk`. -/
def translateStream (env : Env) (text targetLanguage : String)
    (sourceLanguage : Option String) (requireActivation : Bool) :
    Except String TranslateResult × List String :=
  if env.translatorInSelf = false then
    (.error "Streaming translation failed: Translator API is not supported in this browser", [])
  else
    match resolveSource env text sourceLanguage with
    | .error e => (.error ("Streaming translation failed: " ++ e), [])
    | .ok src0 =>
      let src := jsToLowerCase src0
      let tgt := jsToLowerCase targetLanguage
      if src = "" ∨ tgt = "" then
        (.error "Streaming translation failed: Both source and target languages must be specified", [])
      else if src = tgt then
        (.ok { originalText := text, translatedText := text, sourceLanguage := src,
               targetLanguage := tgt, note := some "source-target-identical" }, [text])
      else
        let canTranslate := env.translatorAvailabilityF src tgt
        if canTranslate = "unavailable" then
          (.error ("Streaming translation failed: Translation from " ++ src ++ " to " ++ tgt
                   ++ " is not available"), [])
        else if requireActivation = true ∧ hasActivation env = false then
          (.error "Streaming translation failed: User activation required to initialize Translator. Trigger from a click/tap/keypress.",
           [])
        else
          let frags := env.translatorStreamF src tgt text
          (.ok { originalText := text,
                 translatedText := frags.foldl (· ++ ·) "",
                 sourceLanguage := src, targetLanguage := tgt, note := none },
           accumChunks "" frags)

/-- Embeds the FIRST copy of `AIService.translate`, the one in
src/services/cloud-ai-service.js:240-294.  Its presence check is inverted: it
throws `Translator API is not available in this context` precisely when
`'Translator' in self` holds (directly under a comment saying the API is
supported); when the API is absent it falls through to the older
`window.translation` API.  Accessing `createTranslator` on an undefined
`window.translation` raises a TypeError. -/
def firstCopyTranslate (env : Env) (text targetLanguage : String)
    (sourceLanguage : Option String) : Except String TranslateResult :=
  if env.translatorInSelf = true then
    .error "Translation failed: Translator API is not available in this context"
  else
    let resolved : Except String (Option String) :=
      if sourceLanguage = none ∨ sourceLanguage = some "" then env.oldDetectF text
      else .ok sourceLanguage
    match resolved with
    | .error e => .error ("Translation failed: " ++ e)
    | .ok srcOpt =>
      let srcShown := srcOpt.getD "undefined"
      let canTranslate : Option String :=
        if env.windowTranslationDefined then some (env.canTranslateF srcShown targetLanguage)
        else none
      if canTranslate = some "no" then
        .error ("Translation failed: Translation from " ++ srcShown ++ " to "
                ++ targetLanguage ++ " is not available")
      else if env.windowTranslationDefined = false then
        .error "Translation failed: Cannot read properties of undefined (reading 'createTranslator')"
      else
        .ok { originalText := text,
              translatedText := env.oldCreateTranslateF srcShown targetLanguage text,
              sourceLanguage := srcShown, targetLanguage := targetLanguage, note := none }

/-- The SECOND copy of `AIService.translate`, in
src/services/cloud-ai-service.js:510-612: its body is textually identical to
the src/services/ai-services.js:241-343 version embedded above (same guards,
same identity short-circuit, same result shape). -/
def secondCopyTranslate (env : Env) (text targetLanguage : String)
    (sourceLanguage : Option String) (requireActivation : Bool) :
    Except String TranslateResult × List String :=
  translate env text targetLanguage sourceLanguage requireActivation

end LocalAI

/-! ## Content script: caption debouncing and dedup (src/content.js:366-435)

The controller is modelled as a state machine over an active live-translation
session.  Scheduled debounce callbacks live in an explicit list of alive
timers (JS `setTimeout` callbacks that have neither fired nor been
cancelled); `this.debounceTimer` holds the id of the most recently scheduled
one, and `clearTimeout` cancels exactly the timer whose id it is handed.
Firing a timer runs `processCaption` with the caption it captured. -/

namespace Content

/-- An alive `setTimeout` registration: its id, the caption text captured by
the callback closure, and the delay in milliseconds it was scheduled with. -/
structure Timer where
  id : Nat
  text : String
  delayMs : Nat
deriving DecidableEq, Repr

/-- The controller state relevant to caption handling. -/
structure CtrlState where
  active : Bool
  lastOriginal : String
  timers : List Timer
  nextId : Nat
  debounceTimer : Option Nat
  /-- The texts passed to `processCaption`, i.e. the successive TRANSLATE
  requests issued. -/
  processed : List String
deriving DecidableEq, Repr

/-- `clearTimeout(this.debounceTimer)`: cancels the timer with that id if it
is still alive, and is a no-op on `null` or an already-dead id. -/
def clearDebounce (timers : List Timer) (tid : Option Nat) : List Timer :=
  match tid with
  | none => timers
  | some i => timers.filter (fun tm => tm.id ≠ i)

/-- Embeds `LiveTranslatorController.handleDetectedCaption`
(src/content.js:382-390): skip empty text and text equal to `lastOriginal`,
otherwise cancel the pending debounce timer and schedule `processCaption`
for the new text after 150 ms. -/
def handleDetectedCaption (s : CtrlState) (text : String) : CtrlState :=
  if text = "" ∨ text = s.lastOriginal then s
  else
    { s with
      timers := clearDebounce s.timers s.debounceTimer ++ [⟨s.nextId, text, 150⟩],
      debounceTimer := some s.nextId,
      nextId := s.nextId + 1 }

/-- Embeds `LiveTranslatorController.processCaption` (src/content.js:392-435):
when active and the text is non-empty, record it in `lastOriginal` and issue
the TRANSLATE request (appended to `processed`). -/
def processCaption (s : CtrlState) (text : String) : CtrlState :=
  if s.active = false ∨ text = "" then s
  else { s with lastOriginal := text, processed := s.processed ++ [text] }

/-- A scheduled debounce timer fires: it is removed from the alive set and
its captured caption is handed to `processCaption`. -/
def fireTimer (s : CtrlState) (i : Nat) : CtrlState :=
  match s.timers.find? (fun tm => tm.id = i) with
  | none => s
  | some tm =>
    processCaption { s with timers := s.timers.filter (fun t => t.id ≠ i) } tm.text

/-- Guard of `checkYouTubeCaptions` (src/content.js:206-208):
`captionText && captionText !== this.lastOriginal && captionText.length > 1`. -/
def checkYouTubeCaptions (s : CtrlState) (captionText : String) : CtrlState :=
  if captionText ≠ "" ∧ captionText ≠ s.lastOriginal ∧ captionText.length > 1 then
    handleDetectedCaption s captionText
  else s

/-- Guard of the Netflix mutation callback (src/content.js:238-240):
`text && text !== this.lastOriginal`. -/
def netflixDetect (s : CtrlState) (text : String) : CtrlState :=
  if text ≠ "" ∧ text ≠ s.lastOriginal then handleDetectedCaption s text else s

/-- Guard of the Twitch mutation callback (src/content.js:271-273):
`text && text !== this.lastOriginal && text.length > 2`. -/
def twitchDetect (s : CtrlState) (text : String) : CtrlState :=
  if text ≠ "" ∧ text ≠ s.lastOriginal ∧ text.length > 2 then
    handleDetectedCaption s text
  else s

/-- Guard of the generic mutation callback (src/content.js:311-313). -/
def genericDetect (s : CtrlState) (text : String) : CtrlState :=
  if text ≠ "" ∧ text ≠ s.lastOriginal ∧ text.length > 2 then
    handleDetectedCaption s text
  else s

/-- Embeds `LiveTranslatorController.handleCueChange` (src/content.js:366-379)
after the cue texts have been joined: inactive controllers ignore cues, and
text equal to `lastOriginal` is skipped. -/
def handleCueChange (s : CtrlState) (text : String) : CtrlState :=
  if s.active = false then s
  else if text ≠ "" ∧ text ≠ s.lastOriginal then handleDetectedCaption s text
  else s

/-- Events of a live session: a caption reaches `handleDetectedCaption`, or
an alive debounce timer fires. -/
inductive Event where
  | detect (text : String)
  | fire (i : Nat)
deriving DecidableEq, Repr

/-- One step of the session. -/
def step (s : CtrlState) : Event → CtrlState
  | .detect text => handleDetectedCaption s text
  | .fire i => fireTimer s i

/-- Run a list of events from a state. -/
def run (s : CtrlState) (evs : List Event) : CtrlState :=
  evs.foldl step s

/-- State right after `start()`: active, empty `lastOriginal`, no timer ever
scheduled, nothing processed. -/
def initState : CtrlState :=
  { active := true, lastOriginal := "", timers := [], nextId := 0,
    debounceTimer := none, processed := [] }

/-- The debouncing invariant of an active session: every alive timer is the
one referenced by `debounceTimer`, carries a non-empty caption different from
`lastOriginal`; `lastOriginal` is the most recently processed caption (empty
before the first); and no two consecutive processed captions are equal. -/
def Inv (s : CtrlState) : Prop :=
  s.active = true ∧
  s.timers.length ≤ 1 ∧
  (∀ tm ∈ s.timers, s.debounceTimer = some tm.id ∧ tm.text ≠ "" ∧ tm.text ≠ s.lastOriginal) ∧
  s.lastOriginal = (s.processed.getLast?).getD "" ∧
  s.processed.Chain' (· ≠ ·)

end Content

/-! ## Live translation worker (src/services/live-translation-worker.js) -/

namespace Worker

/-- The worker state relevant to caption dedup. -/
structure WState where
  isActive : Bool
  lastProcessedText : String
  /-- The caption texts that passed the dedup and were sent on to language
  detection / translation. -/
  requests : List String
deriving DecidableEq, Repr

/-- Embeds `LiveTranslationWorker.handleCaptionUpdate`
(src/services/live-translation-worker.js:158-191): ignore non-caption
messages, and skip when inactive, empty, or equal to `lastProcessedText`;
otherwise record the text and process it. -/
def handleCaptionUpdate (s : WState) (action : String) (text : String) : WState :=
  if action ≠ "CAPTION_DETECTED" then s
  else if s.isActive = false ∨ text = "" ∨ text = s.lastProcessedText then s
  else { s with lastProcessedText := text, requests := s.requests ++ [text] }

/-- Run a sequence of incoming caption messages. -/
def runW (s : WState) (msgs : List (String × String)) : WState :=
  msgs.foldl (fun st m => handleCaptionUpdate st m.1 m.2) s

/-- Worker state right after `start()`. -/
def initW : WState :=
  { isActive := true, lastProcessedText := "", requests := [] }

/-- Dedup invariant of an active worker. -/
def InvW (s : WState) : Prop :=
  s.lastProcessedText = (s.requests.getLast?).getD "" ∧
  s.requests.Chain' (· ≠ ·)

end Worker

/-! ## Firebase Cloud Functions (src/firebase/functions/index.js) -/

namespace Functions

/-- A Firestore `users/{userId}` document as read by `checkUserAccess`:
fields may be absent. -/
structure UserData where
  subscription : Option String
  requestsToday : Nat
  /-- Day of month of the stored `lastReset` timestamp. -/
  lastResetDay : Option Nat
deriving DecidableEq, Repr

/-- Result of `checkUserAccess`.  `remaining = none` encodes `Infinity`. -/
structure Access where
  allowed : Bool
  subscription : String
  remaining : Option Nat
deriving DecidableEq, Repr

/-- Embeds `checkUserAccess` (src/firebase/functions/index.js:35-78).
`today` is `new Date().getDate()`, the current day of month.  A missing
document is created as a fresh free user; the daily counter resets when the
stored day of month differs from today; limits are 50 for `'free'` (and for
unknown subscription strings, via `|| 50`) and `Infinity` for `'pro'` and
`'team'`. -/
def checkUserAccess (userDoc : Option UserData) (today : Nat) : Access :=
  match userDoc with
  | none => { allowed := true, subscription := "free", remaining := some 50 }
  | some userData =>
    let subscription := jsOrStr userData.subscription "free"
    let used := if userData.lastResetDay = some today then userData.requestsToday else 0
    let limit : Option Nat :=
      if subscription = "free" then some 50
      else if subscription = "pro" ∨ subscription = "team" then none
      else some 50
    match limit with
    | none => { allowed := true, subscription := subscription, remaining := none }
    | some l =>
      if used ≥ l then { allowed := false, subscription := subscription, remaining := some 0 }
      else { allowed := true, subscription := subscription, remaining := some (l - used) }

/-- An `HttpsError`: its code and message. -/
structure HttpsErr where
  code : String
  message : String
deriving DecidableEq, Repr

/-- Environment of a callable invocation: the caller (if authenticated), the
caller's Firestore document, today's day of month, and the Vertex AI model as
a black box mapping prompts to generated text or a thrown message. -/
structure Env where
  auth : Option String
  userDoc : Option UserData
  today : Nat
  vertexF : String → Except String String

/-- Body of the try-block of `summarizeText`
(src/firebase/functions/index.js:117-160): rate-limit check (throwing
`resource-exhausted` when not allowed) followed by the Vertex AI call. -/
def summarizeTry (env : Env) (prompt : String) : Except HttpsErr String :=
  let access := checkUserAccess env.userDoc env.today
  if access.allowed = false then
    .error { code := "resource-exhausted",
             message := "Daily limit reached. Upgrade to Pro for unlimited requests." }
  else
    match env.vertexF prompt with
    | .error m => .error { code := "internal", message := m }
    | .ok summary => .ok summary

/-- Embeds `summarizeText` (src/firebase/functions/index.js:104-166): the
auth and argument guards throw outside the try-block, but everything inside
it — including the `resource-exhausted` HttpsError — is caught by the
`catch` and rethrown as `HttpsError('internal', 'Failed to summarize: ' +
error.message)`. -/
def summarizeText (env : Env) (text prompt : String) : Except HttpsErr String :=
  if env.auth = none then
    .error { code := "unauthenticated", message := "You must be signed in to use Cloud AI" }
  else if text = "" then
    .error { code := "invalid-argument", message := "Text is required" }
  else
    match summarizeTry env prompt with
    | .ok summary => .ok summary
    | .error e =>
      .error { code := "internal", message := "Failed to summarize: " ++ e.message }

/-- Body of the try-block of `translateText`
(src/firebase/functions/index.js:183-209). -/
def translateTry (env : Env) (prompt : String) : Except HttpsErr String :=
  let access := checkUserAccess env.userDoc env.today
  if access.allowed = false then
    .error { code := "resource-exhausted",
             message := "Daily limit reached. Upgrade to Pro for unlimited requests." }
  else
    match env.vertexF prompt with
    | .error m => .error { code := "internal", message := m }
    | .ok translatedText => .ok translatedText

/-- Embeds `translateText` (src/firebase/functions/index.js:171-215); the
catch rethrows every error from the try-block as
`HttpsError('internal', 'Failed to translate: ' + error.message)`. -/
def translateText (env : Env) (text targetLanguage prompt : String) :
    Except HttpsErr String :=
  if env.auth = none then
    .error { code := "unauthenticated", message := "You must be signed in to use Cloud AI" }
  else if text = "" ∨ targetLanguage = "" then
    .error { code := "invalid-argument", message := "Text and target language are required" }
  else
    match translateTry env prompt with
    | .ok translatedText => .ok translatedText
    | .error e =>
      .error { code := "internal", message := "Failed to translate: " ++ e.message }

/-- Body of the try-block of `chatWithAI`
(src/firebase/functions/index.js:232-263). -/
def chatTry (env : Env) (prompt : String) : Except HttpsErr String :=
  let access := checkUserAccess env.userDoc env.today
  if access.allowed = false then
    .error { code := "resource-exhausted",
             message := "Daily limit reached. Upgrade to Pro for unlimited requests." }
  else
    match env.vertexF prompt with
    | .error m => .error { code := "internal", message := m }
    | .ok response => .ok response

/-- Embeds `chatWithAI` (src/firebase/functions/index.js:220-269); the catch
rethrows every error from the try-block as
`HttpsError('internal', 'Failed to chat: ' + error.message)`. -/
def chatWithAI (env : Env) (message prompt : String) : Except HttpsErr String :=
  if env.auth = none then
    .error { code := "unauthenticated", message := "You must be signed in to use Cloud AI" }
  else if message = "" then
    .error { code := "invalid-argument", message := "Message is required" }
  else
    match chatTry env prompt with
    | .ok response => .ok response
    | .error e =>
      .error { code := "internal", message := "Failed to chat: " ++ e.message }

end Functions

/-! ## Concrete environments used by witnesses and evaluations -/

/-- A router environment: auto mode not used, cloud selected, cloud failing,
local fallback succeeding. -/
def routerEnvEx : Router.Env :=
  { storedAiMode := some "cloud", hasCloudAccess := true, onLine := true,
    avail := { summarizer := "available", translator := "available",
               languageDetector := "available", promptAPI := "available" },
    cloudSummarizeF := fun _ => .error "boom",
    localSummarizeF := fun t => .ok ("local summary of " ++ t),
    cloudTranslateF := fun _ _ _ => .error "boom",
    localTranslateF := fun t _ _ => .ok ("local translation of " ++ t),
    cloudChatF := fun _ => .error "boom",
    localPromptF := fun t => .ok ("local reply to " ++ t) }

/-- A cloud-service environment with a signed-in user and deterministic
backends. -/
def cloudEnvEx : Cloud.Env :=
  { authenticated := true,
    translateBackendF := fun _ _ _ =>
      .ok { translatedText := "BONJOUR TOUT LE MONDE".toList,
            sourceLanguage := "en", targetLanguage := "fr", remaining := 49 },
    chatBackendF := fun _ _ =>
      .ok { response := "Hello there, how can I help?".toList, remaining := 48 } }

/-- A local-AI environment in which the Translator API is present, the pair
is available, and a user gesture is active. -/
def localEnvEx : LocalAI.Env :=
  { translatorInSelf := true,
    userActivationDefined := true, userActivationActive := true,
    detectF := fun _ => .ok (some "en"),
    translatorAvailabilityF := fun _ _ => "available",
    translatorTranslateF := fun _ _ _ => "BONJOUR",
    translatorStreamF := fun _ _ _ => ["BON", "JOUR"],
    windowTranslationDefined := true,
    canTranslateF := fun _ _ => "readily",
    oldDetectF := fun _ => .ok (some "en"),
    oldCreateTranslateF := fun _ _ _ => "BONJOUR" }

/-- A callable environment: a signed-in free user whose 50-request daily
quota is spent today (day of month 5). -/
def fnEnvExhausted : Functions.Env :=
  { auth := some "user-1",
    userDoc := some { subscription := some "free", requestsToday := 50, lastResetDay := some 5 },
    today := 5,
    vertexF := fun _ => .ok "GENERATED" }

/-! ## Theorems -/

/-- C5: the live-caption content script is a per-platform dispatcher keyed on
hostname.  `detectPlatform` walks its if/else chain: `'youtube'` for any
hostname containing `'youtube.com'`, then `'netflix'`, `'twitch'`,
`'primevideo'`, `'disneyplus'` for hostnames containing their patterns, and
`'generic'` otherwise; `startCaptionDetection` dispatches `'youtube'`,
`'netflix'` and `'twitch'` to their dedicated routines and every other
platform value — including `'primevideo'` and `'disneyplus'` — to the generic
HTML5 detection. -/
theorem C5_platform_dispatch (hostname platform : String) :
    (jsIncludes hostname "youtube.com" = true →
      Content.detectPlatform hostname = "youtube") ∧
    (jsIncludes hostname "youtube.com" = false →
      jsIncludes hostname "netflix.com" = true →
      Content.detectPlatform hostname = "netflix") ∧
    (jsIncludes hostname "youtube.com" = false →
      jsIncludes hostname "netflix.com" = false →
      jsIncludes hostname "twitch.tv" = true →
      Content.detectPlatform hostname = "twitch") ∧
    (jsIncludes hostname "youtube.com" = false →
      jsIncludes hostname "netflix.com" = false →
      jsIncludes hostname "twitch.tv" = false →
      jsIncludes hostname "primevideo.com" = true →
      Content.detectPlatform hostname = "primevideo") ∧
    (jsIncludes hostname "youtube.com" = false →
      jsIncludes hostname "netflix.com" = false →
      jsIncludes hostname "twitch.tv" = false →
      jsIncludes hostname "primevideo.com" = false →
      jsIncludes hostname "disneyplus.com" = true →
      Content.detectPlatform hostname = "disneyplus") ∧
    (jsIncludes hostname "youtube.com" = false →
      jsIncludes hostname "netflix.com" = false →
      jsIncludes hostname "twitch.tv" = false →
      jsIncludes hostname "primevideo.com" = false →
      jsIncludes hostname "disneyplus.com" = false →
      Content.detectPlatform hostname = "generic") ∧
    Content.startCaptionDetection "youtube" = .youtube ∧
    Content.startCaptionDetection "netflix" = .netflix ∧
    Content.startCaptionDetection "twitch" = .twitch ∧
    (platform ≠ "youtube" → platform ≠ "netflix" → platform ≠ "twitch" →
      Content.startCaptionDetection platform = .generic) := by
  refine ⟨?_, ?_, ?_, ?_, ?_, ?_, rfl, rfl, rfl, ?_⟩ <;>
    intros <;> simp_all [Content.detectPlatform, Content.startCaptionDetection]

/-- Witness for C5: a Prime Video hostname is classified `'primevideo'` and
dispatched to the generic HTML5 detection. -/
theorem C5_platform_dispatch_witness :
    Content.detectPlatform "www.primevideo.com" = "primevideo" ∧
    Content.startCaptionDetection "primevideo" = .generic := by
  have h := C5_platform_dispatch "www.primevideo.com" "primevideo"
  exact ⟨h.2.2.2.1 (by decide) (by decide) (by decide) (by decide),
         h.2.2.2.2.2.2.2.2.2 (by decide) (by decide) (by decide)⟩

/-- C7: the AI mode round-trips through `chrome.storage`.  After
`setMode(m)` with a non-empty mode string, a subsequent `initialize()` —
which `selectProvider` performs first — loads mode `m` back, so `getMode()`
returns `m`; and on storage that never had an `aiMode` value, `initialize()`
falls back to the default `'local'`. -/
theorem C7_mode_round_trip (st : Router.Storage) (mode : String) :
    (mode ≠ "" → Router.initializeMode (Router.setMode st mode).2 = mode) ∧
    Router.initializeMode { aiMode := none } = "local" := by
  constructor
  · intro h
    simp [Router.initializeMode, Router.setMode, jsOrStr, h]
  · rfl

/-- Witness for C7: storing `'auto'` over a storage that previously held
`'cloud'` makes the next `initialize()` yield `'auto'`. -/
theorem C7_mode_round_trip_witness :
    Router.initializeMode (Router.setMode { aiMode := some "cloud" } "auto").2 = "auto" :=
  (C7_mode_round_trip { aiMode := some "cloud" } "auto").1 (by decide)

/-- C2: `selectProvider` is a pure preference chain over the stored mode,
cloud access, local availability, text length and the online flag: `'cloud'`
mode returns cloud with access and local without; `'local'` mode returns
local; `'auto'` mode prefers local when it is available for the action and
the text is under 10000 characters, then cloud when accessible and online,
then local when available, and otherwise throws. -/
theorem C2_selectProvider_chain (env : Router.Env) (action text : String) :
    (jsOrStr env.storedAiMode "local" = "cloud" → env.hasCloudAccess = true →
      Router.selectProvider env action text = .ok .cloud) ∧
    (jsOrStr env.storedAiMode "local" = "cloud" → env.hasCloudAccess = false →
      Router.selectProvider env action text = .ok .local) ∧
    (jsOrStr env.storedAiMode "local" = "local" →
      Router.selectProvider env action text = .ok .local) ∧
    (jsOrStr env.storedAiMode "local" = "auto" →
      Router.isLocalAvailable env.avail action = true → text.length < 10000 →
      Router.selectProvider env action text = .ok .local) ∧
    (jsOrStr env.storedAiMode "local" = "auto" →
      ¬(Router.isLocalAvailable env.avail action = true ∧ text.length < 10000) →
      env.hasCloudAccess = true → env.onLine = true →
      Router.selectProvider env action text = .ok .cloud) ∧
    (jsOrStr env.storedAiMode "local" = "auto" →
      ¬(text.length < 10000) →
      ¬(env.hasCloudAccess = true ∧ env.onLine = true) →
      Router.isLocalAvailable env.avail action = true →
      Router.selectProvider env action text = .ok .local) ∧
    (jsOrStr env.storedAiMode "local" = "auto" →
      Router.isLocalAvailable env.avail action = false →
      ¬(env.hasCloudAccess = true ∧ env.onLine = true) →
      Router.selectProvider env action text
        = .error "No AI provider available. Please check your connection or enable Local AI.") := by
  refine ⟨?_, ?_, ?_, ?_, ?_, ?_, ?_⟩ <;>
    intros <;> simp_all [Router.selectProvider]

/-- Witness for C2: with mode `'auto'`, the summarizer available locally and
a short text, local is selected. -/
theorem C2_selectProvider_chain_witness :
    Router.selectProvider
      { routerEnvEx with storedAiMode := some "auto", hasCloudAccess := false }
      "summarize" "short text" = .ok .local := by
  have h := C2_selectProvider_chain
    { routerEnvEx with storedAiMode := some "auto", hasCloudAccess := false }
    "summarize" "short text"
  exact h.2.2.2.1 (by decide) (by decide) (by decide)

/-- The fallback attempt invokes at most one provider. -/
theorem fallback_attempts_le_one (env : Router.Env) (action text tgt src : String)
    (p : Router.Provider) :
    (Router.fallback env action text tgt src p).2.length ≤ 1 := by
  unfold Router.fallback
  split_ifs <;> simp

/-- The summarize path invokes at most two providers. -/
theorem summarize_attempts_le_two (env : Router.Env) (text : String) :
    (Router.summarize env text).2.length ≤ 2 := by
  unfold Router.summarize
  cases hsel : Router.selectProvider env "summarize" text with
  | error e => simp
  | ok provider =>
    have hfb := fallback_attempts_le_one env "summarize" text "" "" provider
    cases provider
    · cases hatt : env.cloudSummarizeF text <;> simp [hatt] <;> omega
    · cases hatt : env.localSummarizeF text <;> simp [hatt] <;> omega

/-- The translate path invokes at most two providers. -/
theorem translate_attempts_le_two (env : Router.Env) (text tgt src : String) :
    (Router.translate env text tgt src).2.length ≤ 2 := by
  unfold Router.translate
  cases hsel : Router.selectProvider env "translate" text with
  | error e => simp
  | ok provider =>
    have hfb := fallback_attempts_le_one env "translate" text tgt src provider
    cases provider
    · cases hatt : env.cloudTranslateF text tgt src <;> simp [hatt] <;> omega
    · cases hatt : env.localTranslateF text tgt src <;> simp [hatt] <;> omega

/-- The chat path invokes at most two providers. -/
theorem chat_attempts_le_two (env : Router.Env) (msg : String) :
    (Router.chat env msg).2.length ≤ 2 := by
  unfold Router.chat
  cases hsel : Router.selectProvider env "chat" msg with
  | error e => simp
  | ok provider =>
    have hfb := fallback_attempts_le_one env "chat" msg "" "" provider
    cases provider
    · cases hatt : env.cloudChatF msg <;> simp [hatt] <;> omega
    · cases hatt : env.localPromptF msg <;> simp [hatt] <;> omega

/-- C1: for each of summarize, translate and chat, when the selected
provider's attempt throws, the router retries exactly once with the other
provider; when that alternate is unavailable (no cloud access, or local AI
unavailable for the action), a fresh error is thrown with no attempt; when
the alternate is attempted, its outcome — including a thrown error — is
returned to the caller unchanged; and in every case at most two provider
invocations happen. -/
theorem C1_single_fallback_retry (env : Router.Env) (text tgt src msg : String) :
    ((Router.summarize env text).2.length ≤ 2 ∧
     (∀ e, Router.selectProvider env "summarize" text = .ok .cloud →
        env.cloudSummarizeF text = .error e →
        (Router.isLocalAvailable env.avail "summarize" = true →
          Router.summarize env text = (env.localSummarizeF text, [.cloud, .local])) ∧
        (Router.isLocalAvailable env.avail "summarize" = false →
          Router.summarize env text
            = (.error "Local AI not available and cloud AI failed", [.cloud]))) ∧
     (∀ e, Router.selectProvider env "summarize" text = .ok .local →
        env.localSummarizeF text = .error e →
        (env.hasCloudAccess = true →
          Router.summarize env text = (env.cloudSummarizeF text, [.local, .cloud])) ∧
        (env.hasCloudAccess = false →
          Router.summarize env text
            = (.error "Cloud AI not available and local AI failed", [.local])))) ∧
    ((Router.translate env text tgt src).2.length ≤ 2 ∧
     (∀ e, Router.selectProvider env "translate" text = .ok .cloud →
        env.cloudTranslateF text tgt src = .error e →
        (Router.isLocalAvailable env.avail "translate" = true →
          Router.translate env text tgt src
            = (env.localTranslateF text tgt src, [.cloud, .local])) ∧
        (Router.isLocalAvailable env.avail "translate" = false →
          Router.translate env text tgt src
            = (.error "Local AI not available and cloud AI failed", [.cloud]))) ∧
     (∀ e, Router.selectProvider env "translate" text = .ok .local →
        env.localTranslateF text tgt src = .error e →
        (env.hasCloudAccess = true →
          Router.translate env text tgt src
            = (env.cloudTranslateF text tgt src, [.local, .cloud])) ∧
        (env.hasCloudAccess = false →
          Router.translate env text tgt src
            = (.error "Cloud AI not available and local AI failed", [.local])))) ∧
    ((Router.chat env msg).2.length ≤ 2 ∧
     (∀ e, Router.selectProvider env "chat" msg = .ok .cloud →
        env.cloudChatF msg = .error e →
        (Router.isLocalAvailable env.avail "chat" = true →
          Router.chat env msg = (env.localPromptF msg, [.cloud, .local])) ∧
        (Router.isLocalAvailable env.avail "chat" = false →
          Router.chat env msg
            = (.error "Local AI not available and cloud AI failed", [.cloud]))) ∧
     (∀ e, Router.selectProvider env "chat" msg = .ok .local →
        env.localPromptF msg = .error e →
        (env.hasCloudAccess = true →
          Router.chat env msg = (env.cloudChatF msg, [.local, .cloud])) ∧
        (env.hasCloudAccess = false →
          Router.chat env msg
            = (.error "Cloud AI not available and local AI failed", [.local])))) := by
  refine ⟨⟨?_, ?_, ?_⟩, ⟨?_, ?_, ?_⟩, ⟨?_, ?_, ?_⟩⟩
  case _ => exact summarize_attempts_le_two env text
  case _ =>
    intro e hsel hfail
    constructor <;> intro hav <;>
      simp [Router.summarize, hsel, hfail, Router.fallback, hav]
  case _ =>
    intro e hsel hfail
    constructor <;> intro hacc <;>
      simp [Router.summarize, hsel, hfail, Router.fallback, hacc]
  case _ => exact translate_attempts_le_two env text tgt src
  case _ =>
    intro e hsel hfail
    constructor <;> intro hav <;>
      simp [Router.translate, hsel, hfail, Router.fallback, hav]
  case _ =>
    intro e hsel hfail
    constructor <;> intro hacc <;>
      simp [Router.translate, hsel, hfail, Router.fallback, hacc]
  case _ => exact chat_attempts_le_two env msg
  case _ =>
    intro e hsel hfail
    constructor <;> intro hav <;>
      simp [Router.chat, hsel, hfail, Router.fallback, hav]
  case _ =>
    intro e hsel hfail
    constructor <;> intro hacc <;>
      simp [Router.chat, hsel, hfail, Router.fallback, hacc]

/-- Witness for C1: in `routerEnvEx` the user chose cloud, every cloud call
throws, and local is available, so a summarize call falls back to exactly one
local attempt whose result is returned. -/
theorem C1_single_fallback_retry_witness :
    Router.summarize routerEnvEx "some article"
      = (.ok "local summary of some article", [.cloud, .local]) := by
  have h := ((C1_single_fallback_retry routerEnvEx "some article" "" "" "").1.2.1
    "boom" rfl rfl).1 (by decide)
  simpa [routerEnvEx] using h

/-- C9, evaluation at the failing input: for a signed-in free user whose 50
daily requests are spent (requestsToday = 50, lastReset today),
`checkUserAccess` correctly reports the request not allowed — it permits free
users below 50, resets the counter on a day change, and admits pro/team
unconditionally — but `summarizeText`, `translateText` and `chatWithAI` do
NOT reject with code `'resource-exhausted'`: the HttpsError thrown inside
their own try-block is caught by the surrounding catch and rethrown with
code `'internal'`. -/
theorem C9_quota_error_code_eval :
    Functions.checkUserAccess
        (some { subscription := some "free", requestsToday := 50, lastResetDay := some 5 }) 5
      = { allowed := false, subscription := "free", remaining := some 0 } ∧
    Functions.checkUserAccess
        (some { subscription := some "free", requestsToday := 49, lastResetDay := some 5 }) 5
      = { allowed := true, subscription := "free", remaining := some 1 } ∧
    Functions.checkUserAccess
        (some { subscription := some "free", requestsToday := 50, lastResetDay := some 4 }) 5
      = { allowed := true, subscription := "free", remaining := some 50 } ∧
    Functions.checkUserAccess
        (some { subscription := some "pro", requestsToday := 100000, lastResetDay := some 5 }) 5
      = { allowed := true, subscription := "pro", remaining := none } ∧
    Functions.checkUserAccess
        (some { subscription := some "team", requestsToday := 100000, lastResetDay := some 5 }) 5
      = { allowed := true, subscription := "team", remaining := none } ∧
    Functions.summarizeText fnEnvExhausted "some text" "prompt"
      = .error { code := "internal",
                 message := "Failed to summarize: Daily limit reached. Upgrade to Pro for unlimited requests." } ∧
    Functions.translateText fnEnvExhausted "some text" "fr" "prompt"
      = .error { code := "internal",
                 message := "Failed to translate: Daily limit reached. Upgrade to Pro for unlimited requests." } ∧
    Functions.chatWithAI fnEnvExhausted "hello" "prompt"
      = .error { code := "internal",
                 message := "Failed to chat: Daily limit reached. Upgrade to Pro for unlimited requests." } := by
  refine ⟨rfl, ?_, ?_, rfl, rfl, rfl, rfl, rfl⟩ <;> decide

/-- C4, evaluation at the failing input: in an environment where the
Translator API IS present (`'Translator' in self` holds), the language pair
is available and a user gesture is active, the `AIService.translate` of
src/services/ai-services.js forwards the translator's output and does not
throw, but the first copy of `AIService.translate` in
src/services/cloud-ai-service.js throws `Translator API is not available in
this context` — the presence of the API alone makes it fail. -/
theorem C4_translator_presence_eval :
    LocalAI.translate localEnvEx "Hello" "fr" (some "en") true
      = (.ok { originalText := "Hello", translatedText := "BONJOUR",
               sourceLanguage := "en", targetLanguage := "fr", note := none },
         ["Translator.availability", "Translator.create", "translator.translate"]) ∧
    LocalAI.firstCopyTranslate localEnvEx "Hello" "fr" (some "en")
      = .error "Translation failed: Translator API is not available in this context" := by
  constructor <;> rfl

/-- Lowercasing yields the empty string only on the empty string. -/
theorem jsToLowerCase_eq_empty_iff (s : String) : jsToLowerCase s = "" ↔ s = "" := by
  constructor
  · intro h
    have hd : s.data.map Char.toLower = [] := congrArg String.data h
    cases s with
    | mk data => cases data <;> simp_all [jsToLowerCase]
  · intro h
    subst h
    rfl

/-- C10: translation to the same language is the identity.  With the
Translator API present and an explicit source language whose lowercased form
equals the lowercased target, `AIService.translate`,
`AIService.translateStream` (src/services/ai-services.js) and the second
copy of `AIService.translate` (src/services/cloud-ai-service.js) all return
the input text unchanged as `translatedText` (and `originalText`), marked
`note: 'source-target-identical'`, without a single Translator API
interaction; the streaming variant calls `onChunk` exactly once, with the
full original text. -/
theorem C10_same_language_identity (env : LocalAI.Env) (text target s : String)
    (hpresent : env.translatorInSelf = true)
    (hs1 : s ≠ "") (hs2 : s ≠ "auto")
    (heq : jsToLowerCase s = jsToLowerCase target) :
    LocalAI.translate env text target (some s) true
      = (.ok { originalText := text, translatedText := text,
               sourceLanguage := jsToLowerCase s, targetLanguage := jsToLowerCase target,
               note := some "source-target-identical" }, []) ∧
    LocalAI.translateStream env text target (some s) true
      = (.ok { originalText := text, translatedText := text,
               sourceLanguage := jsToLowerCase s, targetLanguage := jsToLowerCase target,
               note := some "source-target-identical" }, [text]) ∧
    LocalAI.secondCopyTranslate env text target (some s) true
      = (.ok { originalText := text, translatedText := text,
               sourceLanguage := jsToLowerCase s, targetLanguage := jsToLowerCase target,
               note := some "source-target-identical" }, []) := by
  have hsrc : jsToLowerCase s ≠ "" := fun hh => hs1 ((jsToLowerCase_eq_empty_iff s).1 hh)
  have htgt : jsToLowerCase target ≠ "" := heq ▸ hsrc
  refine ⟨?_, ?_, ?_⟩ <;>
    simp [LocalAI.translate, LocalAI.translateStream, LocalAI.secondCopyTranslate,
          LocalAI.resolveSource, hpresent, hs1, hs2, heq, hsrc, htgt]

/-- Witness for C10: translating from `'EN'` to `'en'` returns the original
text untouched, with the identical-pair note and no Translator interaction. -/
theorem C10_same_language_identity_witness :
    LocalAI.translate localEnvEx "Bonjour" "en" (some "EN") true
      = (.ok { originalText := "Bonjour", translatedText := "Bonjour",
               sourceLanguage := "en", targetLanguage := "en",
               note := some "source-target-identical" }, []) := by
  have h := (C10_same_language_identity localEnvEx "Bonjour" "en" "EN"
    rfl (by decide) (by decide) (by decide)).1
  have h1 : jsToLowerCase "EN" = "en" := by decide
  have h2 : jsToLowerCase "en" = "en" := by decide
  rw [h1, h2] at h
  exact h

/-- Every simulated chunk is an initial segment of the final text:
`substring(0, i + chunkSize)`. -/
theorem chunkLoop_mem_take (t : List Char) (cs : Nat) :
    ∀ i, ∀ c ∈ Cloud.chunkLoop t cs i, c = t.take c.length := by
  intro i
  induction i using Cloud.chunkLoop.induct t cs with
  | case1 i h ih =>
    intro c hc
    rw [Cloud.chunkLoop, dif_pos h] at hc
    rcases List.mem_cons.1 hc with hc | hc
    · subst hc
      rw [List.length_take]
      rcases le_total (i + cs) t.length with hle | hle
      · rw [Nat.min_eq_left hle]
      · rw [Nat.min_eq_right hle, List.take_length, List.take_of_length_le hle]
    · exact ih c hc
  | case2 i h =>
    intro c hc
    rw [Cloud.chunkLoop, dif_neg h] at hc
    simp at hc

/-- Head of the chunk loop. -/
theorem chunkLoop_head (t : List Char) (cs j : Nat) :
    (Cloud.chunkLoop t cs j).head?
      = if 0 < cs ∧ j < t.length then some (t.take (j + cs)) else none := by
  rw [Cloud.chunkLoop]
  split <;> simp_all

/-- Consecutive simulated chunks strictly extend each other: each chunk is a
proper initial segment of the next. -/
theorem chunkLoop_chain (t : List Char) (cs : Nat) :
    ∀ i, List.Chain' (fun a b => a.length < b.length ∧ a = b.take a.length)
      (Cloud.chunkLoop t cs i) := by
  intro i
  induction i using Cloud.chunkLoop.induct t cs with
  | case1 i h ih =>
    rw [Cloud.chunkLoop, dif_pos h]
    rw [List.chain'_cons']
    refine ⟨?_, ih⟩
    intro b hb
    rw [chunkLoop_head] at hb
    split at hb
    case isTrue hnext =>
      simp only [Option.mem_def, Option.some.injEq] at hb
      subst hb
      have hcs : 0 < cs := h.1
      have hlt : i + cs < t.length := hnext.2
      constructor
      · rw [List.length_take, List.length_take]
        omega
      · rw [List.length_take, Nat.min_eq_left (le_of_lt hlt), List.take_take,
          Nat.min_eq_left (by omega)]
    case isFalse => simp at hb
  | case2 i h =>
    rw [Cloud.chunkLoop, dif_neg h]
    exact List.chain'_nil

/-- The last simulated chunk is the whole text. -/
theorem chunkLoop_getLast (t : List Char) (cs : Nat) :
    ∀ i, 0 < cs → i < t.length → (Cloud.chunkLoop t cs i).getLast? = some t := by
  intro i
  induction i using Cloud.chunkLoop.induct t cs with
  | case1 i h ih =>
    intro hcs hi
    rw [Cloud.chunkLoop, dif_pos h]
    by_cases hnext : 0 < cs ∧ i + cs < t.length
    · have hunf : Cloud.chunkLoop t cs (i + cs)
          = t.take (i + cs + cs) :: Cloud.chunkLoop t cs (i + cs + cs) := by
        rw [Cloud.chunkLoop, dif_pos hnext]
      rw [hunf, List.getLast?_cons_cons, ← hunf]
      exact ih hcs hnext.2
    · have hge : t.length ≤ i + cs := by omega
      rw [Cloud.chunkLoop, dif_neg hnext]
      simp [List.take_of_length_le hge]
  | case2 i h =>
    intro hcs hi
    omega

/-- C3: `translateStream` and `chatStream` are chunk-simulated refinements of
the non-streaming calls.  With a signed-in user and a successful backend
response, each performs exactly one backend request (`translateText`,
`chatWithAI`), returns the non-streaming result unchanged, and delivers to
`onChunk` a sequence of strictly growing initial segments
`substring(0, i + chunkSize)` of the final text; when the text is non-empty
the last delivered chunk is the full text. -/
theorem C3_chunked_streams (env : Cloud.Env) (text msg : List Char)
    (tgt src : String) (ctx : List (String × List Char))
    (henv : env.authenticated = true)
    (r : Cloud.TranslateResp) (hbk : env.translateBackendF text tgt src = .ok r)
    (rc : Cloud.ChatResp) (hbc : env.chatBackendF msg ctx = .ok rc) :
    ((Cloud.translateStream env text tgt src).1
        = (Cloud.translate env text tgt src).1 ∧
     (Cloud.translateStream env text tgt src).1
        = .ok { translatedText := r.translatedText, sourceLanguage := r.sourceLanguage,
                targetLanguage := r.targetLanguage, provider := "cloud-ai",
                remaining := r.remaining } ∧
     (Cloud.translateStream env text tgt src).2.1 = ["translateText"] ∧
     List.Chain' (fun a b => a.length < b.length ∧ a = b.take a.length)
       (Cloud.translateStream env text tgt src).2.2 ∧
     (∀ c ∈ (Cloud.translateStream env text tgt src).2.2,
        c = r.translatedText.take c.length) ∧
     (r.translatedText ≠ [] →
        (Cloud.translateStream env text tgt src).2.2.getLast? = some r.translatedText)) ∧
    ((Cloud.chatStream env msg ctx).1 = (Cloud.chat env msg ctx).1 ∧
     (Cloud.chatStream env msg ctx).1
        = .ok { response := rc.response, provider := "cloud-ai", remaining := rc.remaining } ∧
     (Cloud.chatStream env msg ctx).2.1 = ["chatWithAI"] ∧
     List.Chain' (fun a b => a.length < b.length ∧ a = b.take a.length)
       (Cloud.chatStream env msg ctx).2.2 ∧
     (∀ c ∈ (Cloud.chatStream env msg ctx).2.2, c = rc.response.take c.length) ∧
     (rc.response ≠ [] →
        (Cloud.chatStream env msg ctx).2.2.getLast? = some rc.response)) := by
  have htr : Cloud.translate env text tgt src
      = (.ok { translatedText := r.translatedText, sourceLanguage := r.sourceLanguage,
               targetLanguage := r.targetLanguage, provider := "cloud-ai",
               remaining := r.remaining }, ["translateText"]) := by
    simp [Cloud.translate, henv, hbk]
  have hch : Cloud.chat env msg ctx
      = (.ok { response := rc.response, provider := "cloud-ai", remaining := rc.remaining },
         ["chatWithAI"]) := by
    simp [Cloud.chat, henv, hbc]
  have hts : Cloud.translateStream env text tgt src
      = (.ok { translatedText := r.translatedText, sourceLanguage := r.sourceLanguage,
               targetLanguage := r.targetLanguage, provider := "cloud-ai",
               remaining := r.remaining }, ["translateText"],
         Cloud.chunkLoop r.translatedText (Cloud.ceilDiv r.translatedText.length 10) 0) := by
    rw [Cloud.translateStream, htr]
  have hcs : Cloud.chatStream env msg ctx
      = (.ok { response := rc.response, provider := "cloud-ai", remaining := rc.remaining },
         ["chatWithAI"],
         Cloud.chunkLoop rc.response (Cloud.ceilDiv rc.response.length 15) 0) := by
    rw [Cloud.chatStream, hch]
  refine ⟨⟨?_, ?_, ?_, ?_, ?_, ?_⟩, ⟨?_, ?_, ?_, ?_, ?_, ?_⟩⟩
  · rw [hts, htr]
  · rw [hts]
  · rw [hts]
  · rw [hts]
    exact chunkLoop_chain _ _ 0
  · rw [hts]
    exact chunkLoop_mem_take _ _ 0
  · intro hne
    rw [hts]
    have hpos : 0 < Cloud.ceilDiv r.translatedText.length 10 := by
      unfold Cloud.ceilDiv
      have : r.translatedText.length ≠ 0 := by
        simpa [List.length_eq_zero] using hne
      omega
    have hlen : 0 < r.translatedText.length := by
      have : r.translatedText.length ≠ 0 := by
        simpa [List.length_eq_zero] using hne
      omega
    exact chunkLoop_getLast _ _ 0 hpos hlen
  · rw [hcs, hch]
  · rw [hcs]
  · rw [hcs]
  · rw [hcs]
    exact chunkLoop_chain _ _ 0
  · rw [hcs]
    exact chunkLoop_mem_take _ _ 0
  · intro hne
    rw [hcs]
    have hpos : 0 < Cloud.ceilDiv rc.response.length 15 := by
      unfold Cloud.ceilDiv
      have : rc.response.length ≠ 0 := by
        simpa [List.length_eq_zero] using hne
      omega
    have hlen : 0 < rc.response.length := by
      have : rc.response.length ≠ 0 := by
        simpa [List.length_eq_zero] using hne
      omega
    exact chunkLoop_getLast _ _ 0 hpos hlen

/-- Witness for C3: in `cloudEnvEx`, a streaming translation issues exactly
one `translateText` request and its last chunk is the full translated text. -/
theorem C3_chunked_streams_witness :
    (Cloud.translateStream cloudEnvEx "Hello".toList "fr" "en").2.1 = ["translateText"] ∧
    (Cloud.translateStream cloudEnvEx "Hello".toList "fr" "en").2.2.getLast?
      = some "BONJOUR TOUT LE MONDE".toList := by
  have h := C3_chunked_streams cloudEnvEx "Hello".toList "Hi".toList "fr" "en" []
    rfl _ rfl _ rfl
  exact ⟨h.1.2.2.1, h.1.2.2.2.2.2 (by decide)⟩

/-- Under the invariant, cancelling the referenced debounce timer empties the
alive-timer set. -/
theorem clearDebounce_of_inv {s : Content.CtrlState}
    (hlen : s.timers.length ≤ 1)
    (href : ∀ tm ∈ s.timers, s.debounceTimer = some tm.id) :
    Content.clearDebounce s.timers s.debounceTimer = [] := by
  cases hts : s.timers with
  | nil =>
    cases s.debounceTimer <;> simp [Content.clearDebounce]
  | cons tm rest =>
    have hrest : rest = [] := by
      rw [hts] at hlen
      simp only [List.length_cons] at hlen
      exact List.eq_nil_of_length_eq_zero (by omega)
    subst hrest
    have hd : s.debounceTimer = some tm.id := href tm (by rw [hts]; exact List.mem_cons_self tm [])
    rw [hd]
    simp [Content.clearDebounce]

/-- A non-skipped caption replaces whatever was pending: the alive-timer set
becomes exactly the newly scheduled 150 ms timer. -/
theorem handleDetectedCaption_replaces {s : Content.CtrlState}
    (hInv : Content.Inv s) {text : String} (h1 : text ≠ "") (h2 : text ≠ s.lastOriginal) :
    Content.handleDetectedCaption s text
      = { s with timers := [⟨s.nextId, text, 150⟩],
                 debounceTimer := some s.nextId, nextId := s.nextId + 1 } := by
  obtain ⟨-, hlen, href, -, -⟩ := hInv
  unfold Content.handleDetectedCaption
  rw [if_neg (by simp [h1, h2])]
  rw [clearDebounce_of_inv hlen (fun tm htm => (href tm htm).1)]
  rfl

/-- `handleDetectedCaption` preserves the session invariant. -/
theorem inv_handleDetectedCaption {s : Content.CtrlState} (hInv : Content.Inv s)
    (text : String) : Content.Inv (Content.handleDetectedCaption s text) := by
  by_cases hskip : text = "" ∨ text = s.lastOriginal
  · rw [Content.handleDetectedCaption, if_pos hskip]
    exact hInv
  · push_neg at hskip
    rw [handleDetectedCaption_replaces hInv hskip.1 hskip.2]
    obtain ⟨hact, hlen, href, hlink, hchain⟩ := hInv
    refine ⟨hact, by simp, ?_, hlink, hchain⟩
    intro tm htm
    simp only [List.mem_singleton] at htm
    subst htm
    exact ⟨rfl, hskip.1, hskip.2⟩

/-- `fireTimer` preserves the session invariant. -/
theorem inv_fireTimer {s : Content.CtrlState} (hInv : Content.Inv s) (i : Nat) :
    Content.Inv (Content.fireTimer s i) := by
  cases hfind : s.timers.find? (fun tm => tm.id = i) with
  | none =>
    have hid : Content.fireTimer s i = s := by
      unfold Content.fireTimer
      rw [hfind]
    rw [hid]
    exact hInv
  | some tm =>
    have hgoal : Content.fireTimer s i
        = Content.processCaption { s with timers := s.timers.filter (fun t => t.id ≠ i) }
            tm.text := by
      unfold Content.fireTimer
      rw [hfind]
    rw [hgoal]
    obtain ⟨hact, hlen, href, hlink, hchain⟩ := hInv
    have htm_mem : tm ∈ s.timers := List.mem_of_find?_eq_some hfind
    have hprops := href tm htm_mem
    have htimers : s.timers = [tm] := by
      cases hts : s.timers with
      | nil => rw [hts] at htm_mem; simp at htm_mem
      | cons a rest =>
        rw [hts] at hlen htm_mem
        simp only [List.length_cons] at hlen
        have hrest : rest = [] := List.eq_nil_of_length_eq_zero (by omega)
        subst hrest
        simp only [List.mem_singleton] at htm_mem
        rw [htm_mem]
    have hid : tm.id = i := by simpa using List.find?_some hfind
    unfold Content.processCaption
    rw [if_neg (by simp [hact, hprops.2.1])]
    refine ⟨hact, by rw [htimers]; simp [hid], by rw [htimers]; simp [hid], by simp, ?_⟩
    rw [List.chain'_append]
    refine ⟨hchain, List.chain'_singleton _, ?_⟩
    intro x hx y hy
    simp only [List.head?_cons, Option.mem_def, Option.some.injEq] at hy
    subst hy
    have hx' : s.processed.getLast? = some x := hx
    have hlx : s.lastOriginal = x := by rw [hlink, hx']; rfl
    exact hlx ▸ Ne.symm hprops.2.2


/-- The freshly started session satisfies the invariant. -/
theorem inv_initState : Content.Inv Content.initState := by
  simp [Content.Inv, Content.initState]

/-- Every step of the session preserves the invariant. -/
theorem inv_step {s : Content.CtrlState} (hInv : Content.Inv s) (e : Content.Event) :
    Content.Inv (Content.step s e) := by
  cases e with
  | detect text => exact inv_handleDetectedCaption hInv text
  | fire i => exact inv_fireTimer hInv i

/-- Any run from an invariant state stays in the invariant. -/
theorem inv_run {s : Content.CtrlState} (hInv : Content.Inv s) (evs : List Content.Event) :
    Content.Inv (Content.run s evs) := by
  induction evs generalizing s with
  | nil => exact hInv
  | cons e rest ih => exact ih (inv_step hInv e)

/-- A burst of captions, each non-empty and different from the session's
`lastOriginal`, processed with no timer firing in between, changes nothing
but the pending timer: nothing is processed during the burst, the state
remains invariant, `lastOriginal` and `active` are untouched, and exactly
the last caption of the burst is left pending. -/
theorem burst_foldl (texts : List String) : ∀ s : Content.CtrlState, Content.Inv s →
    (∀ u ∈ texts, u ≠ "" ∧ u ≠ s.lastOriginal) →
    Content.Inv (texts.foldl Content.handleDetectedCaption s) ∧
    (texts.foldl Content.handleDetectedCaption s).processed = s.processed ∧
    (texts.foldl Content.handleDetectedCaption s).lastOriginal = s.lastOriginal ∧
    (texts.foldl Content.handleDetectedCaption s).active = s.active ∧
    (texts ≠ [] → ∃ j,
      (texts.foldl Content.handleDetectedCaption s).timers
        = [⟨j, (texts.getLast?).getD "", 150⟩]) := by
  induction texts with
  | nil =>
    intro s hInv _
    exact ⟨hInv, rfl, rfl, rfl, fun hne => absurd rfl hne⟩
  | cons t ts ih =>
    intro s hInv hall
    have ht := hall t (List.mem_cons_self t ts)
    have hrepl := handleDetectedCaption_replaces hInv ht.1 ht.2
    have hall' : ∀ u ∈ ts,
        u ≠ "" ∧ u ≠ (Content.handleDetectedCaption s t).lastOriginal := by
      intro u hu
      have h0 := hall u (List.mem_cons_of_mem t hu)
      simpa [hrepl] using h0
    obtain ⟨hI, hproc, hlast, hactv, htimers⟩ :=
      ih (Content.handleDetectedCaption s t) (inv_handleDetectedCaption hInv t) hall'
    rw [List.foldl_cons]
    refine ⟨hI, ?_, ?_, ?_, ?_⟩
    · rw [hproc, hrepl]
    · rw [hlast, hrepl]
    · rw [hactv, hrepl]
    · intro hne
      cases hts : ts with
      | nil =>
        subst hts
        refine ⟨s.nextId, ?_⟩
        simp [hrepl]
      | cons t2 ts2 =>
        have hne2 : ts ≠ [] := by rw [hts]; simp
        obtain ⟨j, hj⟩ := htimers hne2
        refine ⟨j, ?_⟩
        rw [hts] at hj
        rw [hj]
        simp

/-- C6: detected captions are debounced with a single 150 ms timer.  In any
invariant session state, a non-skipped caption cancels whatever was pending
and leaves exactly one newly scheduled 150 ms timer carrying it, without
processing anything; along every event sequence from session start at most
one caption is ever pending; and a burst of captions — each non-empty and
differing from the last processed text — with no timer firing in between
leaves only its last caption pending, so that the next timer expiry passes
exactly that last caption to `processCaption` and translation. -/
theorem C6_debounce_single_timer (s : Content.CtrlState) (hInv : Content.Inv s)
    (text : String) (h1 : text ≠ "") (h2 : text ≠ s.lastOriginal) :
    (Content.handleDetectedCaption s text).timers = [⟨s.nextId, text, 150⟩] ∧
    (Content.handleDetectedCaption s text).debounceTimer = some s.nextId ∧
    (Content.handleDetectedCaption s text).processed = s.processed ∧
    (∀ evs, (Content.run Content.initState evs).timers.length ≤ 1) ∧
    (∀ texts, texts ≠ [] →
      (∀ u ∈ texts, u ≠ "" ∧ u ≠ s.lastOriginal) →
      (texts.foldl Content.handleDetectedCaption s).processed = s.processed ∧
      ∃ j, (texts.foldl Content.handleDetectedCaption s).timers
              = [⟨j, (texts.getLast?).getD "", 150⟩] ∧
        (Content.fireTimer (texts.foldl Content.handleDetectedCaption s) j).processed
          = s.processed ++ [(texts.getLast?).getD ""]) := by
  have hrepl := handleDetectedCaption_replaces hInv h1 h2
  refine ⟨by rw [hrepl], by rw [hrepl], by rw [hrepl], ?_, ?_⟩
  · intro evs
    exact (inv_run inv_initState evs).2.1
  · intro texts hne hall
    obtain ⟨hI, hproc, hlast, hactv, htimers⟩ := burst_foldl texts s hInv hall
    obtain ⟨j, hj⟩ := htimers hne
    refine ⟨hproc, j, hj, ?_⟩
    have hfire : Content.fireTimer (texts.foldl Content.handleDetectedCaption s) j
        = Content.processCaption
            { texts.foldl Content.handleDetectedCaption s with
              timers := (texts.foldl Content.handleDetectedCaption s).timers.filter
                (fun t => t.id ≠ j) } ((texts.getLast?).getD "") := by
      unfold Content.fireTimer
      rw [hj]
      simp
    rw [hfire]
    have hmem : (texts.getLast?).getD "" ∈ texts := by
      rw [List.getLast?_eq_getLast texts hne]
      exact List.getLast_mem hne
    have hlastmem := hall _ hmem
    unfold Content.processCaption
    rw [if_neg (by simp [hactv ▸ hInv.1, hlastmem.1])]
    simpa using hproc

/-- Witness for C6: from the freshly started session, a first caption leaves
exactly one pending 150 ms timer and processes nothing. -/
theorem C6_debounce_single_timer_witness :
    (Content.handleDetectedCaption Content.initState "Hello there").timers
        = [⟨0, "Hello there", 150⟩] ∧
    (Content.handleDetectedCaption Content.initState "Hello there").processed = [] := by
  have h := C6_debounce_single_timer Content.initState
    (by simp [Content.Inv, Content.initState]) "Hello there" (by decide) (by decide)
  exact ⟨h.1, h.2.2.1⟩

/-- The freshly started worker satisfies its dedup invariant. -/
theorem invW_initW : Worker.InvW Worker.initW := by
  simp [Worker.InvW, Worker.initW]

/-- `handleCaptionUpdate` preserves the worker dedup invariant. -/
theorem invW_handleCaptionUpdate {s : Worker.WState} (hInv : Worker.InvW s)
    (action text : String) : Worker.InvW (Worker.handleCaptionUpdate s action text) := by
  obtain ⟨hlink, hchain⟩ := hInv
  unfold Worker.handleCaptionUpdate
  by_cases hact : action ≠ "CAPTION_DETECTED"
  · rw [if_pos hact]
    exact ⟨hlink, hchain⟩
  · rw [if_neg hact]
    by_cases hskip : s.isActive = false ∨ text = "" ∨ text = s.lastProcessedText
    · rw [if_pos hskip]
      exact ⟨hlink, hchain⟩
    · rw [if_neg hskip]
      push_neg at hskip
      refine ⟨by simp, ?_⟩
      rw [List.chain'_append]
      refine ⟨hchain, List.chain'_singleton _, ?_⟩
      intro x hx y hy
      simp only [List.head?_cons, Option.mem_def, Option.some.injEq] at hy
      subst hy
      have hx' : s.requests.getLast? = some x := hx
      have hlx : s.lastProcessedText = x := by rw [hlink, hx']; rfl
      exact hlx ▸ Ne.symm hskip.2.2

/-- Any worker run preserves the dedup invariant. -/
theorem invW_runW {s : Worker.WState} (hInv : Worker.InvW s)
    (msgs : List (String × String)) : Worker.InvW (Worker.runW s msgs) := by
  induction msgs generalizing s with
  | nil => exact hInv
  | cons m rest ih => exact ih (invW_handleCaptionUpdate hInv m.1 m.2)

/-- C8: a caption equal to the last processed text is never reprocessed.
Along every event sequence of an active controller session, no two
consecutive `processCaption` translation requests carry the same text, and
likewise no two consecutive worker requests; moreover `handleDetectedCaption`
and every detection path (YouTube, Netflix, Twitch, generic, cue change), as
well as the worker's `handleCaptionUpdate`, leave the state untouched when
handed exactly the last processed text. -/
theorem C8_dedup_consecutive (evs : List Content.Event)
    (msgs : List (String × String)) (s : Content.CtrlState) (w : Worker.WState) :
    ((Content.run Content.initState evs).processed).Chain' (· ≠ ·) ∧
    ((Worker.runW Worker.initW msgs).requests).Chain' (· ≠ ·) ∧
    Content.handleDetectedCaption s s.lastOriginal = s ∧
    Content.checkYouTubeCaptions s s.lastOriginal = s ∧
    Content.netflixDetect s s.lastOriginal = s ∧
    Content.twitchDetect s s.lastOriginal = s ∧
    Content.genericDetect s s.lastOriginal = s ∧
    Content.handleCueChange s s.lastOriginal = s ∧
    Worker.handleCaptionUpdate w "CAPTION_DETECTED" w.lastProcessedText = w := by
  refine ⟨(inv_run inv_initState evs).2.2.2.2, (invW_runW invW_initW msgs).2,
    ?_, ?_, ?_, ?_, ?_, ?_, ?_⟩
  · simp [Content.handleDetectedCaption]
  · simp [Content.checkYouTubeCaptions]
  · simp [Content.netflixDetect]
  · simp [Content.twitchDetect]
  · simp [Content.genericDetect]
  · by_cases hact : s.active = false
    · simp [Content.handleCueChange, hact]
    · simp [Content.handleCueChange, hact]
  · simp [Worker.handleCaptionUpdate]

end BriefAI
